import Mathlib

/-!
Verification of `src/wake_on.rs` (WakeOnWrite) against its specification.

Embedding choices:
* A `Waker` (the spec's "resumption handle") is opaque to the cell; we model it
  by a natural-number identity.  `wake_by_ref` does not consume the waker and
  has no return value, so a call's observable effect is the multiset of wake
  notifications it emits; each operation therefore returns, besides its result
  and the updated cell, the list of waker identities notified during the call.
* Rust's `&mut self` methods become state-passing functions returning the new
  cell.  All functions are total, mirroring the panic-free source.
-/

/-- A resumption handle, opaque to the cell; identified by a natural number.
Cloning a Rust `Waker` yields a handle waking the same task, i.e. the same
identity in this model. -/
abbrev Waker := Nat

/-- `struct WakeOnWrite<T> { inner: T, waker: Option<Waker> }`. -/
structure WakeOnWrite (T : Type) where
  inner : T
  waker : Option Waker
deriving Repr

/-- `pub fn new(value: T) -> Self { Self { inner: value, waker: None } }` -/
def WakeOnWrite.new {T : Type} (value : T) : WakeOnWrite T :=
  { inner := value, waker := none }

/-- `pub fn set_waker(wow: &mut Self, waker: Waker) -> Option<Waker>`:
`wow.waker.replace(waker)` returns the old contents and stores the new one. -/
def WakeOnWrite.set_waker {T : Type} (wow : WakeOnWrite T) (w : Waker) :
    Option Waker × WakeOnWrite T :=
  (wow.waker, { wow with waker := some w })

/-- `pub fn take_waker(wow: &mut Self) -> Option<Waker>`:
`wow.waker.take()` returns the contents and leaves `None`. -/
def WakeOnWrite.take_waker {T : Type} (wow : WakeOnWrite T) :
    Option Waker × WakeOnWrite T :=
  (wow.waker, { wow with waker := none })

/-- `pub fn waker(wow: &Self) -> Option<&Waker>`: `wow.waker.as_ref()`.
A borrowed view of an option is, in a value model, the option itself. -/
def WakeOnWrite.wakerRef {T : Type} (wow : WakeOnWrite T) : Option Waker :=
  wow.waker

/-- `Deref::deref`: `&self.inner`. -/
def WakeOnWrite.deref {T : Type} (wow : WakeOnWrite T) : T :=
  wow.inner

/-- The notifications emitted by one `DerefMut::deref_mut` call:
`self.waker.as_ref().map(|w| w.wake_by_ref())` wakes the registered waker,
if any, exactly once, without removing it. -/
def WakeOnWrite.deref_mut_wakes {T : Type} (wow : WakeOnWrite T) : List Waker :=
  wow.waker.toList

/-- One complete mutable access: obtain the `&mut T` view via `deref_mut`
(emitting its notifications) and write `f` of the old value through the view.
`f = id` models a caller that obtains the view but changes nothing. -/
def WakeOnWrite.mutAccess {T : Type} (f : T → T) (wow : WakeOnWrite T) :
    WakeOnWrite T × List Waker :=
  ({ wow with inner := f wow.inner }, wow.deref_mut_wakes)

/-- The derived `Clone`: field-wise clone.  Cloning `T` by value and cloning
`Option<Waker>` (a waker clone wakes the same task, hence keeps its identity)
reproduce both fields; the derived impl contains no call to `wake_by_ref`,
so the emitted notification list is empty. -/
def WakeOnWrite.cloneCell {T : Type} (wow : WakeOnWrite T) :
    WakeOnWrite T × List Waker :=
  ({ inner := wow.inner, waker := wow.waker }, [])

/-- A typeclass mirroring Rust's `Default`. -/
class RustDefault (T : Type) where
  default_val : T

instance : RustDefault Nat := ⟨0⟩

/-- The derived `Default` impl: every field takes its own default, i.e.
`inner = T::default()` and `waker = Option::default() = None`. -/
def WakeOnWrite.derivedDefault {T : Type} [RustDefault T] : WakeOnWrite T :=
  { inner := RustDefault.default_val, waker := none }

/-- The operations a single-threaded client can perform on a cell.
`mutAccess f` is a full mutable access writing `f` of the old value. -/
inductive Op (T : Type) where
  | readAccess
  | mutAccess (f : T → T)
  | install (w : Waker)
  | removeW
  | peek

/-- One step of the client-visible transition system, each case delegating to
the corresponding source operation; the second component is the list of wake
notifications the operation emits. -/
def WakeOnWrite.step {T : Type} (wow : WakeOnWrite T) : Op T → WakeOnWrite T × List Waker
  | Op.readAccess => (wow, [])
  | Op.mutAccess f => wow.mutAccess f
  | Op.install w => ((wow.set_waker w).2, [])
  | Op.removeW => ((wow.take_waker).2, [])
  | Op.peek => (wow, [])

/-- Run a sequence of operations, concatenating the emitted notifications. -/
def WakeOnWrite.runTrace {T : Type} (wow : WakeOnWrite T) :
    List (Op T) → WakeOnWrite T × List Waker
  | [] => (wow, [])
  | op :: ops =>
      let r := wow.step op
      let rest := r.1.runTrace ops
      (rest.1, r.2 ++ rest.2)

/-- C1: with a handle `h` registered, every mutable access notifies `h`
exactly once per access, whatever the caller writes through the view
(including nothing, `f = id`), and `h` stays registered afterwards. -/
theorem mut_access_notifies_exactly_once {T : Type} (wow : WakeOnWrite T)
    (h : Waker) (f : T → T) (hreg : wow.waker = some h) :
    (wow.mutAccess f).2 = [h] ∧ (wow.mutAccess f).2.count h = 1 ∧
    (wow.mutAccess f).1.waker = some h := by
  simp [WakeOnWrite.mutAccess, WakeOnWrite.deref_mut_wakes, hreg]

theorem mut_access_notifies_exactly_once_witness :
    (({ inner := 0, waker := some 7 } : WakeOnWrite Nat).mutAccess
        (fun x => x + 1)).2 = [7] ∧
    (({ inner := 0, waker := some 7 } : WakeOnWrite Nat).mutAccess
        (fun x => x + 1)).2.count 7 = 1 ∧
    (({ inner := 0, waker := some 7 } : WakeOnWrite Nat).mutAccess
        (fun x => x + 1)).1.waker = some 7 :=
  mut_access_notifies_exactly_once _ 7 _ rfl

/-- C2: the notifications of one mutable access are exactly those to the
handle registered at the moment of the access; after installing `h1` then
`h2`, a mutable access notifies `h2` and never `h1`. -/
theorem notify_targets_currently_registered {T : Type} (wow : WakeOnWrite T)
    (h1 h2 : Waker) (f g : T → T) (hne : h1 ≠ h2) :
    (wow.mutAccess f).2 = wow.waker.toList ∧
    ((((wow.set_waker h1).2.set_waker h2).2).mutAccess g).2 = [h2] ∧
    h1 ∉ ((((wow.set_waker h1).2.set_waker h2).2).mutAccess g).2 := by
  refine ⟨rfl, rfl, ?_⟩
  simpa [WakeOnWrite.mutAccess, WakeOnWrite.deref_mut_wakes,
    WakeOnWrite.set_waker] using hne

theorem notify_targets_currently_registered_witness :
    ((WakeOnWrite.new (0 : Nat)).mutAccess id).2 =
      (WakeOnWrite.new (0 : Nat)).waker.toList ∧
    (((((WakeOnWrite.new (0 : Nat)).set_waker 1).2.set_waker 2).2).mutAccess
        id).2 = [2] ∧
    1 ∉ (((((WakeOnWrite.new (0 : Nat)).set_waker 1).2.set_waker 2).2).mutAccess
        id).2 :=
  notify_targets_currently_registered _ 1 2 id id (by decide)

/-- C3: reading returns exactly the wrapped value, and any number of reads
leaves the cell (payload and handle alike) unchanged and emits no
notification. -/
theorem read_transparency {T : Type} (v : T) (wow : WakeOnWrite T) (n : Nat) :
    (WakeOnWrite.new v).deref = v ∧
    wow.deref = wow.inner ∧
    wow.step Op.readAccess = (wow, []) ∧
    wow.runTrace (List.replicate n Op.readAccess) = (wow, []) := by
  refine ⟨rfl, rfl, rfl, ?_⟩
  induction n with
  | zero => rfl
  | succ n ih =>
      simp [List.replicate, WakeOnWrite.runTrace, WakeOnWrite.step, ih]

/-- C4: `set_waker` returns the previously registered handle (`some h1`
after installing `h1`, `none` on a cell with no handle), and afterwards
`waker` shows the handle just installed. -/
theorem install_returns_previous {T : Type} (wow now : WakeOnWrite T)
    (h1 h2 h3 : Waker) (hnone : now.waker = none) :
    ((wow.set_waker h1).2.set_waker h2).1 = some h1 ∧
    (now.set_waker h3).1 = none ∧
    ((wow.set_waker h1).2.set_waker h2).2.wakerRef = some h2 ∧
    (now.set_waker h3).2.wakerRef = some h3 := by
  simp [WakeOnWrite.set_waker, WakeOnWrite.wakerRef, hnone]

theorem install_returns_previous_witness :
    (((WakeOnWrite.new (0 : Nat)).set_waker 1).2.set_waker 2).1 = some 1 ∧
    ((WakeOnWrite.new (5 : Nat)).set_waker 3).1 = none ∧
    (((WakeOnWrite.new (0 : Nat)).set_waker 1).2.set_waker 2).2.wakerRef =
      some 2 ∧
    ((WakeOnWrite.new (5 : Nat)).set_waker 3).2.wakerRef = some 3 :=
  install_returns_previous _ _ 1 2 3 rfl

/-- C5: `take_waker` after `set_waker h` returns `some h`; afterwards
`waker` shows nothing and a mutable access emits no notification. -/
theorem remove_after_install {T : Type} (wow : WakeOnWrite T) (h : Waker)
    (f : T → T) :
    ((wow.set_waker h).2.take_waker).1 = some h ∧
    ((wow.set_waker h).2.take_waker).2.wakerRef = none ∧
    ((((wow.set_waker h).2.take_waker).2).mutAccess f).2 = [] :=
  ⟨rfl, rfl, rfl⟩

/-- C6: with no handle registered, `deref_mut` is total (the model is a
total function, mirroring the panic-free source) and attempts no
notification; the mutable view still works, writing `f` of the old value. -/
theorem no_handle_no_notify {T : Type} (wow : WakeOnWrite T) (f : T → T)
    (hnone : wow.waker = none) :
    wow.deref_mut_wakes = [] ∧ (wow.mutAccess f).2 = [] ∧
    (wow.mutAccess f).1.inner = f wow.inner := by
  simp [WakeOnWrite.deref_mut_wakes, WakeOnWrite.mutAccess, hnone]

theorem no_handle_no_notify_witness :
    (WakeOnWrite.new (0 : Nat)).deref_mut_wakes = [] ∧
    ((WakeOnWrite.new (0 : Nat)).mutAccess (fun x => x + 1)).2 = [] ∧
    ((WakeOnWrite.new (0 : Nat)).mutAccess (fun x => x + 1)).1.inner =
      (fun x => x + 1) (WakeOnWrite.new (0 : Nat)).inner :=
  no_handle_no_notify _ _ rfl

/-- C7: `take_waker` on a cell with no registered handle returns `none` and
leaves the cell completely unchanged. -/
theorem remove_on_empty_is_noop {T : Type} (wow : WakeOnWrite T)
    (hnone : wow.waker = none) :
    wow.take_waker = (none, wow) := by
  cases wow with
  | mk inner waker =>
      cases hnone
      rfl

theorem remove_on_empty_is_noop_witness :
    (WakeOnWrite.new (3 : Nat)).take_waker = (none, WakeOnWrite.new 3) :=
  remove_on_empty_is_noop _ rfl

/-- C8: `new v` wraps exactly `v` with no handle registered, and the
derived default cell wraps `T`'s default value with no handle registered. -/
theorem new_and_default_state {T : Type} [RustDefault T] (v : T) :
    (WakeOnWrite.new v).inner = v ∧ (WakeOnWrite.new v).waker = none ∧
    (WakeOnWrite.derivedDefault : WakeOnWrite T).inner =
      RustDefault.default_val ∧
    (WakeOnWrite.derivedDefault : WakeOnWrite T).waker = none :=
  ⟨rfl, rfl, rfl, rfl⟩

/-- C9: read access, mutable access and `waker` never change the handle
field; `set_waker`, `take_waker` and `waker` never change the payload; the
handle field moves only through `set_waker` (to `some w`) and `take_waker`
(to `none`). -/
theorem handle_and_payload_framing {T : Type} (wow : WakeOnWrite T)
    (f : T → T) (w : Waker) :
    (wow.step Op.readAccess).1.waker = wow.waker ∧
    (wow.step (Op.mutAccess f)).1.waker = wow.waker ∧
    (wow.step Op.peek).1.waker = wow.waker ∧
    (wow.step (Op.install w)).1.inner = wow.inner ∧
    (wow.step Op.removeW).1.inner = wow.inner ∧
    (wow.step Op.peek).1.inner = wow.inner ∧
    (wow.step (Op.install w)).1.waker = some w ∧
    (wow.step Op.removeW).1.waker = none :=
  ⟨rfl, rfl, rfl, rfl, rfl, rfl, rfl, rfl⟩

/-- C10: the derived `Clone` reproduces the payload and the registration
state (a registered handle is cloned into the new cell) and emits no
notification. -/
theorem clone_duplicates_state {T : Type} (wow : WakeOnWrite T) :
    (wow.cloneCell).1.inner = wow.inner ∧
    (wow.cloneCell).1.waker = wow.waker ∧
    (wow.cloneCell).2 = [] :=
  ⟨rfl, rfl, rfl⟩
